import Mathlib

/-
Verification of the MSVC toolchain locator (setuptools/msvc.py).

The Python module is embedded shallowly: Python strings become lists of
characters, the ambient machine (filesystem, registry, subprocesses,
process environment) becomes an explicit World record, and every Python
exception that the code catches becomes an explicit error value.  Python
dictionaries are association lists built by an insert-or-overwrite
operation that mirrors dict update order (insertion order kept, later
value wins).  All definitions are executable.
-/

/-- Python strings are modelled as lists of characters. -/
abbrev Str := List Char

/-- Lower-casing of one character, as the CPython str.lower does on the
ASCII range (letters A to Z map to a to z, everything else unchanged). -/
def pyCharLower (c : Char) : Char :=
  if 65 ≤ c.toNat ∧ c.toNat ≤ 90 then Char.ofNat (c.toNat + 32) else c

/-- Model of the Python method str.lower (ASCII range). -/
def pyLower (s : Str) : Str := s.map pyCharLower

/-- Python truthiness of an optional string: None and the empty string are
falsy, every other string is truthy. -/
def pyTruthy : Option Str → Bool
  | none => false
  | some s => ¬ s.isEmpty

/-- Python truthiness of an optional integer: None and 0 are falsy. -/
def pyTruthyVer : Option Int → Bool
  | none => false
  | some v => v != 0

/-- Model of the Python substring test, the expression (needle in hay). -/
def isSub (n : Str) : Str → Bool
  | [] => n.isEmpty
  | c :: rest => List.isPrefixOf n (c :: rest) || isSub n rest

/-- Characters the Python method str.strip removes (the forms that occur
in subprocess output are modelled: space, tab, carriage return, newline). -/
def isPySpace (c : Char) : Bool :=
  c = ' ' || c = '\t' || c = '\r' || c = '\n'

/-- Model of the Python method str.strip. -/
def pyStrip (s : Str) : Str :=
  ((s.dropWhile isPySpace).reverse.dropWhile isPySpace).reverse

/-- Helper for pySplitlines carrying the reversed current line. -/
def pySplitlinesAux : Str → Str → List Str
  | [], acc => if acc.isEmpty then [] else [acc.reverse]
  | '\r' :: '\n' :: rest, acc => acc.reverse :: pySplitlinesAux rest []
  | '\n' :: rest, acc => acc.reverse :: pySplitlinesAux rest []
  | '\r' :: rest, acc => acc.reverse :: pySplitlinesAux rest []
  | c :: rest, acc => pySplitlinesAux rest (c :: acc)

/-- Model of the Python method str.splitlines for the line terminators
that occur in the modelled data (newline, carriage return, and the pair).
A trailing terminator does not produce a final empty line. -/
def pySplitlines (s : Str) : List Str := pySplitlinesAux s []

/-- Model of the Python method str.partition with separator the equals
sign: returns the part before the first equals sign, the separator (empty
when there is none), and the part after it. -/
def pyPartitionEq : Str → Str × Str × Str
  | [] => ([], [], [])
  | c :: rest =>
    if c = '=' then ([], ['='], rest)
    else
      let p := pyPartitionEq rest
      (c :: p.1, p.2.1, p.2.2)

/-- All characters are decimal digits. -/
def allDigits (l : Str) : Bool := l.all (fun c => c.isDigit)

/-- Numeric value of a digit string (most significant first). -/
def natOfDigits (l : Str) : Nat := l.foldl (fun a c => 10 * a + (c.toNat - 48)) 0

/-- Split at the first dot, or none when there is no dot. -/
def splitDot : Str → Option (Str × Str)
  | [] => none
  | c :: rest =>
    if c = '.' then some ([], rest)
    else
      match splitDot rest with
      | none => none
      | some (a, b) => some (c :: a, b)

/-- Integer part of an unsigned plain decimal literal: digits, optionally
followed by a dot and digits, at least one digit in total. -/
def pyFloatIntCore (s : Str) : Option Nat :=
  match splitDot s with
  | none => if s ≠ [] ∧ allDigits s = true then some (natOfDigits s) else none
  | some (a, b) =>
    if (a ≠ [] ∨ b ≠ []) ∧ allDigits a = true ∧ allDigits b = true then
      some (natOfDigits a)
    else none

/-- Model of the Python expression int(float(v)) on plain decimal
literals with an optional sign: the truncated-toward-zero integer value,
or none when the string is not such a literal. The builtin accepts more
forms (surrounding whitespace, exponents such as 1e2, underscores
between digits, and inf, on which int raises OverflowError); those are
outside the modelled grammar and count as failing here. The only
consumer is the dead enumeration body vc2015Step, and no theorem of this
development depends on the unmodelled forms. -/
def pyFloatInt : Str → Option Int
  | [] => none
  | c :: rest =>
    if c = '-' then (pyFloatIntCore rest).map (fun n => -(n : Int))
    else if c = '+' then (pyFloatIntCore rest).map (fun n => (n : Int))
    else (pyFloatIntCore (c :: rest)).map (fun n => (n : Int))

/-- Model of ntpath.join for one relative component: the left part, a
backslash, the right part (the module only joins relative components). -/
def joinPath (a b : Str) : Str := a ++ '\\' :: b

/-- The Unicode replacement character used by the replace error handler. -/
def replCh : Char := Char.ofNat 0xFFFD

/-- Pair up bytes into little-endian 16-bit code units; the flag records
a dangling odd byte at the end. -/
def u16Units : List Nat → List Nat × Bool
  | [] => ([], false)
  | [_] => ([], true)
  | b0 :: b1 :: rest =>
    let p := u16Units rest
    ((b0 % 256 + 256 * (b1 % 256)) :: p.1, p.2)

/-- Decode a list of 16-bit code units, replacing every malformed
surrogate with the replacement character, as the replace error handler
of the CPython utf-16-le codec does. -/
def decodeUnits : List Nat → Str
  | [] => []
  | [u] => if u < 0xD800 ∨ 0xE000 ≤ u then [Char.ofNat u] else [replCh]
  | u :: u2 :: rest =>
    if u < 0xD800 ∨ 0xE000 ≤ u then Char.ofNat u :: decodeUnits (u2 :: rest)
    else if u < 0xDC00 then
      if 0xDC00 ≤ u2 ∧ u2 < 0xE000 then
        Char.ofNat (0x10000 + (u - 0xD800) * 0x400 + (u2 - 0xDC00)) :: decodeUnits rest
      else replCh :: decodeUnits (u2 :: rest)
    else replCh :: decodeUnits (u2 :: rest)

/-- Model of bytes.decode with the utf-16le codec and the replace error
handler: total on every byte sequence, malformed input becomes
replacement characters and never an error. -/
def decodeUtf16leReplace (bs : List Nat) : Str :=
  let p := u16Units bs
  decodeUnits p.1 ++ (if p.2 then [replCh] else [])

/-- Little-endian utf-16 encoding of a string of basic-plane characters,
used to build concrete subprocess outputs in test scenarios. -/
def encUtf16le (s : Str) : List Nat :=
  s.flatMap (fun c => [c.toNat % 256, c.toNat / 256 % 256])

/-- One enumerated registry value: name, data, and value type. -/
structure RegEntry where
  name : Str
  val : Str
  vtype : Nat
deriving DecidableEq, Repr

/-- The registry string value type winreg.REG_SZ. -/
def REG_SZ : Nat := 1

/-- The ambient machine state the module reads: the process environment,
filesystem predicates, the one registry key the module enumerates (none
when opening it raises OSError), the argv-style subprocess runner used
for the installer query tool (none models CalledProcessError or OSError),
the locale decoder for its output (none models UnicodeDecodeError), the
recursive glob primitive (already sorted, as glob.glob returns), and the
shell-line subprocess runner used for the vcvars script (none models
CalledProcessError). All of these are read-only inputs of one call. -/
structure World where
  environ : List (Str × Str)
  isfile : Str → Bool
  isdir : Str → Bool
  sxsKey : Option (List RegEntry)
  argvOut : List Str → Option (List Nat)
  mbcs : List Nat → Option Str
  glob : Str → List Str
  shellOut : Str → Option (List Nat)

/-- Kinds of Python exception the module distinguishes: the
DistutilsPlatformError it raises and catches, and every other kind. -/
inductive ErrKind where
  | distutilsPlatformError
  | otherError
deriving DecidableEq, Repr

/-- A Python exception value: its class and its message (args[0]). -/
structure PyErr where
  kind : ErrKind
  msg : Str
deriving DecidableEq, Repr

/-- Environment maps are Python dictionaries from names to values. -/
abbrev EnvMap := List (Str × Str)

/-- Model of the Python dict item assignment d[k] = v: overwrite in place
when the key is present, append otherwise. -/
def dictInsert (d : EnvMap) (k v : Str) : EnvMap :=
  if d.any (fun p => p.1 == k) then
    d.map (fun p => if p.1 == k then (p.1, v) else p)
  else d ++ [(k, v)]

/-- Build a Python dict from a stream of key-value pairs, later
occurrences of a key overwriting earlier ones. -/
def dictOf (pairs : List (Str × Str)) : EnvMap :=
  pairs.foldl (fun d kv => dictInsert d kv.1 kv.2) []

/-- Dictionary lookup of the process environment. -/
def lookupEnv (w : World) (k : Str) : Option Str := List.lookup k w.environ

/-- Embedding of PLAT_SPEC_TO_RUNTIME from setuptools/msvc.py. -/
def PLAT_SPEC_TO_RUNTIME : List (Str × Str) :=
  [(("x86").data, ("x86").data),
   (("x86_amd64").data, ("x64").data),
   (("x86_arm").data, ("arm").data),
   (("x86_arm64").data, ("arm64").data)]

/-- Embedding of the runtime-platform derivation inside
_msvc14_find_vcvarsall: the table value when the spec is a key of
PLAT_SPEC_TO_RUNTIME, otherwise x64 when the spec contains amd64 and x86
when it does not. -/
def platSpecToVcruntimePlat (plat_spec : Str) : Str :=
  match List.lookup plat_spec PLAT_SPEC_TO_RUNTIME with
  | some p => p
  | none => if isSub (("amd64").data) plat_spec = true then ("x64").data else ("x86").data

/-- Embedding of the iteration body that the source text of
_msvc14_find_vc2015 contains at lines 128 to 134: an entry updates the
running best pair when its name is truthy, its value type is REG_SZ, its
data is an existing directory, its name parses as a number, and that
number is at least 14 and strictly above the running best version. In
the program this body is dead code, because the loop header raises
before the first iteration (see _msvc14_find_vc2015). -/
def vc2015Step (w : World) (st : Int × Option Str) (e : RegEntry) : Int × Option Str :=
  if e.name ≠ [] ∧ e.vtype = REG_SZ ∧ w.isdir e.val = true then
    match pyFloatInt e.name with
    | none => st
    | some version =>
      if 14 ≤ version ∧ st.1 < version then (version, some e.val) else st
  else st

/-- The NameError raised at line 123 of the source: line 17 imports only
count from itertools, yet the loop header calls itertools.count(), and
the name itertools is bound nowhere in the module, so the exception
escapes every handler (the message of the Python exception names
itertools; its quote marks are omitted here). It is not the recoverable
DistutilsPlatformError kind. -/
def nameErrItertools : PyErr :=
  ⟨ErrKind.otherError, ("NameError: name itertools is not defined").data⟩

/-- Embedding of _msvc14_find_vc2015: the none-none pair when opening
the registry key raises OSError (caught at line 117); when the key
opens, even empty, the loop header at line 123 evaluates
itertools.count() and raises the uncaught NameError before enumerating a
single entry, so the function never returns on such states. The
enumeration body written below the header is embedded as vc2015Step and
is unreachable. -/
def _msvc14_find_vc2015 (w : World) : Except PyErr (Option Int × Option Str) :=
  match w.sxsKey with
  | none => .ok (none, none)
  | some _ => .error nameErrItertools

/-- The argv of the installer query tool invocation in _msvc14_find_vc2017. -/
def vswhereArgs (root : Str) : List Str :=
  [joinPath (joinPath (joinPath root (("Microsoft Visual Studio").data)) (("Installer").data)) (("vswhere.exe").data),
   ("-latest").data, ("-prerelease").data,
   ("-requires").data, ("Microsoft.VisualStudio.Component.VC.Tools.x86.x64").data,
   ("-property").data, ("installationPath").data,
   ("-products").data, ("*").data]

/-- The program-files root _msvc14_find_vc2017 reads from the
environment: the 32-bit program-files variable when truthy, the plain
one otherwise. -/
def programFilesRoot (w : World) : Option Str :=
  let ga := lookupEnv w (("ProgramFiles(x86)").data)
  if pyTruthy ga then ga else lookupEnv w (("ProgramFiles").data)

/-- The auxiliary build directory under a reported installation path. -/
def auxBuildDir (out : Str) : Str :=
  joinPath (joinPath (joinPath (pyStrip out) (("VC").data)) (("Auxiliary").data)) (("Build").data)

/-- Embedding of _msvc14_find_vc2017: look up the program-files roots in
the environment, run the installer query tool, decode its output with the
locale codec, and accept the auxiliary build directory under the reported
installation path when it exists; every failure is the none-none result. -/
def _msvc14_find_vc2017 (w : World) : Option Int × Option Str :=
  if ¬ pyTruthy (programFilesRoot w) then (none, none)
  else
    match w.argvOut (vswhereArgs ((programFilesRoot w).getD [])) with
    | none => (none, none)
    | some bytes =>
      match w.mbcs bytes with
      | none => (none, none)
      | some out =>
        if w.isdir (auxBuildDir out) then (some 15, some (auxBuildDir out)) else (none, none)

/-- The recursive glob pattern _msvc14_find_vcvarsall searches for the
redistributable runtime next to an installer-discovered root. -/
def vcredistGlobPattern (best_dir vcruntime_plat : Str) : Str :=
  joinPath (joinPath (joinPath (joinPath (joinPath (joinPath (joinPath
    best_dir (("..").data)) (("..").data)) (("redist").data)) (("MSVC").data))
    (("**").data)) (vcruntime_plat ++ ('\\' :: ("Microsoft.VC14*.CRT").data)))
    (("vcruntime140.dll").data)

/-- The direct redistributable path _msvc14_find_vcvarsall constructs for
a registry-discovered 2015 root. -/
def vc2015RedistPath (best_dir vcruntime_plat : Str) : Str :=
  joinPath (joinPath (joinPath (joinPath best_dir (("redist").data)) vcruntime_plat)
    (("Microsoft.VC140.CRT").data)) (("vcruntime140.dll").data)

/-- Embedding of _msvc14_find_vcvarsall: try the 2017 discovery, derive
the runtime platform, glob for the redistributable under a found 2017
root, otherwise fall back to the 2015 registry discovery with a directly
constructed redistributable path; require the vcvarsall script to exist,
and silently drop a redistributable that is falsy or not an existing
file. The function installs no handler of its own, so the NameError of
the 2015 strategy propagates through it. -/
def vcruntimeFromGlob (w : World) (best_dir0 : Option Str) (vcruntime_plat : Str) : Option Str :=
  if pyTruthy best_dir0 then
    (w.glob (vcredistGlobPattern (best_dir0.getD []) vcruntime_plat)).getLast?
  else none

/-- The best directory and candidate redistributable pair of
_msvc14_find_vcvarsall before the existence checks: a 2017 root with the
glob result, or the 2015 fallback with its direct redistributable path
when a 2015 version was found. -/
def vc14Candidates (w : World) (plat_spec : Str) : Except PyErr (Option Str × Option Str) :=
  let best_dir0 := (_msvc14_find_vc2017 w).2
  let vcruntime_plat := platSpecToVcruntimePlat plat_spec
  let vcruntime0 := vcruntimeFromGlob w best_dir0 vcruntime_plat
  if ¬ pyTruthy best_dir0 then
    match _msvc14_find_vc2015 w with
    | .error e => .error e
    | .ok bv15 =>
      if pyTruthyVer bv15.1 then
        .ok (bv15.2, some (vc2015RedistPath (bv15.2.getD []) vcruntime_plat))
      else .ok (bv15.2, vcruntime0)
  else .ok (best_dir0, vcruntime0)

def _msvc14_find_vcvarsall (w : World) (plat_spec : Str) : Except PyErr (Option Str × Option Str) :=
  match vc14Candidates w plat_spec with
  | .error e => .error e
  | .ok bdrt =>
    if ¬ pyTruthy bdrt.1 then .ok (none, none)
    else
      let vcvarsall := joinPath (bdrt.1.getD []) (("vcvarsall.bat").data)
      if ¬ w.isfile vcvarsall then .ok (none, none)
      else
        .ok (some vcvarsall,
          if pyTruthy bdrt.2 ∧ w.isfile (bdrt.2.getD []) = true then bdrt.2
          else none)

/-- The shell command line _msvc14_get_vc_env builds to source the vcvars
script and dump the environment table. -/
def vcvarsCmdLine (vcvarsall plat_spec : Str) : Str :=
  ("cmd /u /c \"").data ++ vcvarsall ++ ("\" ").data ++ plat_spec ++ (" && set").data

/-- The stream of lower-cased name and value pairs the environment-dump
parser of _msvc14_get_vc_env keeps: one pair per output line that has a
nonempty part before the first equals sign and a nonempty part after it. -/
def envPairs (out : Str) : List (Str × Str) :=
  (pySplitlines out).filterMap (fun line =>
    let p := pyPartitionEq line
    if p.1 ≠ [] ∧ p.2.2 ≠ [] then some (pyLower p.1, p.2.2) else none)

/-- Embedding of _msvc14_get_vc_env: when the override marker
DISTUTILS_USE_SDK is present in the environment, return the process
environment with lower-cased keys; otherwise locate the vcvars script,
failing with a DistutilsPlatformError naming vcvarsall when it is not
found, run it through the shell, failing with a DistutilsPlatformError
naming the command when the subprocess reports an error, decode the dump
with the total replace decoder, parse it, and inject the redistributable
path under the dedicated key when one was found. A discovery error (the
NameError of the 2015 strategy) propagates unchanged: the function
catches only the CalledProcessError of the subprocess. -/
def _msvc14_get_vc_env (w : World) (plat_spec : Str) : Except PyErr EnvMap :=
  if (lookupEnv w (("DISTUTILS_USE_SDK").data)).isSome then
    .ok (dictOf (w.environ.map (fun kv => (pyLower kv.1, kv.2))))
  else
    match _msvc14_find_vcvarsall w plat_spec with
    | .error e => .error e
    | .ok fv =>
      if ¬ pyTruthy fv.1 then
        .error ⟨ErrKind.distutilsPlatformError, ("Unable to find vcvarsall.bat").data⟩
      else
        let cmd := vcvarsCmdLine (fv.1.getD []) plat_spec
        match w.shellOut cmd with
        | none => .error ⟨ErrKind.distutilsPlatformError, ("Error executing ").data ++ cmd⟩
        | some bytes =>
          let out := decodeUtf16leReplace bytes
          let env := dictOf (envPairs out)
          if pyTruthy fv.2 then
            .ok (dictInsert env (("py_vcruntime_redist").data) (fv.2.getD []))
          else .ok env

/-- Formatting of a rational with one decimal digit, the embedding of the
Python format specifier 0.1f applied to the version numbers this module
formats (which are exact multiples of one tenth). -/
def fmt1 (q : ℚ) : Str :=
  let t : Int := round (q * 10)
  (toString (t / 10)).data ++ '.' :: (toString (t % 10).natAbs).data

/-- Embedding of _augment_exception: when the message mentions vcvarsall
or visual c case-insensitively, the message is replaced by the guidance
text for the requested version, with the standalone-compiler link for
version 9 and the build-tools link for versions at least 14; the kind of
the exception is never changed. -/
def _augment_exception (exc : PyErr) (version : ℚ) : PyErr :=
  let message := exc.msg
  if isSub (("vcvarsall").data) (pyLower message) = true
      ∨ isSub (("visual c").data) (pyLower message) = true then
    let message2 := ("Microsoft Visual C++ ").data ++ fmt1 version ++ (" is required.").data
    let message3 :=
      if version = 9 then
        message2 ++ (" Get it from http://aka.ms/vcpython27").data
      else if 14 ≤ version then
        message2 ++ (" Get it with \"Build Tools for Visual Studio\": https://visualstudio.microsoft.com/downloads/").data
      else message2
    ⟨exc.kind, message3⟩
  else ⟨exc.kind, message⟩

/-- Embedding of msvc14_get_vc_env: first the unpatched resolution path
of the host build system (an external collaborator, passed in as its
outcome), then on a DistutilsPlatformError the synthesis path, whose
DistutilsPlatformError failures are augmented with version 14.0 before
being re-raised. -/
def msvc14_get_vc_env (unpatched : Except PyErr EnvMap)
    (w : World) (plat_spec : Str) : Except PyErr EnvMap :=
  match unpatched with
  | .ok env => .ok env
  | .error e =>
    if e.kind = ErrKind.distutilsPlatformError then
      match _msvc14_get_vc_env w plat_spec with
      | .ok env => .ok env
      | .error e2 =>
        .error (if e2.kind = ErrKind.distutilsPlatformError then _augment_exception e2 14 else e2)
    else .error e

/-- The registry entries of the enumeration scenario from the
specification: versions 10, bogus, 14, 13 in that order. -/
def c4Entries : List RegEntry :=
  [⟨("10").data, ("C:\\VC10").data, REG_SZ⟩,
   ⟨("bogus").data, ("C:\\VCX").data, REG_SZ⟩,
   ⟨("14").data, ("C:\\VC14").data, REG_SZ⟩,
   ⟨("13").data, ("C:\\VC13").data, REG_SZ⟩]

/-- A machine whose enumeration key holds the scenario entries and whose
directories all exist. -/
def c4ExampleWorld : World :=
  { environ := []
    isfile := fun _ => false
    isdir := fun _ => true
    sxsKey := some c4Entries
    argvOut := fun _ => none
    mbcs := fun _ => none
    glob := fun _ => []
    shellOut := fun _ => none }

/-- A machine whose enumeration key opens but holds no entries. -/
def c5EmptyKeyWorld : World :=
  { environ := []
    isfile := fun _ => false
    isdir := fun _ => false
    sxsKey := some []
    argvOut := fun _ => none
    mbcs := fun _ => none
    glob := fun _ => []
    shellOut := fun _ => none }

/-- A machine on which opening the enumeration key raises OSError. -/
def c5OpenFailWorld : World :=
  { environ := []
    isfile := fun _ => false
    isdir := fun _ => false
    sxsKey := none
    argvOut := fun _ => none
    mbcs := fun _ => none
    glob := fun _ => []
    shellOut := fun _ => none }

/-- A machine with a full 2017-style install whose vcvars dump defines
the dedicated redistributable variable itself while the redistributable
glob finds nothing; the path C:\nope does not exist as a file. -/
def vcWorld : World :=
  { environ := [(("ProgramFiles(x86)").data, ("C:\\PF").data)]
    isfile := fun p => p != ("C:\\nope").data
    isdir := fun _ => true
    sxsKey := none
    argvOut := fun _ => some ((("C:\\VS").data).map Char.toNat)
    mbcs := fun bs => some (bs.map Char.ofNat)
    glob := fun _ => []
    shellOut := fun _ => some (encUtf16le (("PY_VCRUNTIME_REDIST=C:\\nope\r\n").data)) }

/-- The machine of vcWorld with a vcvars dump that does not mention the
dedicated redistributable variable. -/
def vcCleanWorld : World :=
  { vcWorld with shellOut := fun _ => some (encUtf16le (("FOO=bar\r\n").data)) }

/-- A machine whose environment carries the override marker and a dummy
variable. -/
def sdkWorld : World :=
  { environ := [(("DISTUTILS_USE_SDK").data, ("1").data), (("Dummy").data, ("v").data)]
    isfile := fun _ => false
    isdir := fun _ => false
    sxsKey := none
    argvOut := fun _ => none
    mbcs := fun _ => none
    glob := fun _ => []
    shellOut := fun _ => none }

/-- The boolean list prefix test agrees with the existence of a
completing tail. -/
lemma isPrefixOf_iff_append (n l : Str) :
    List.isPrefixOf n l = true ↔ ∃ t, l = n ++ t := by
  induction n generalizing l with
  | nil => simp [List.isPrefixOf]
  | cons c cs ih =>
    cases l with
    | nil => simp [List.isPrefixOf]
    | cons d ds =>
      simp only [List.isPrefixOf, Bool.and_eq_true, beq_iff_eq, ih, List.cons_append,
        List.cons.injEq]
      constructor
      · rintro ⟨h1, t, h2⟩
        exact ⟨t, h1.symm, h2⟩
      · rintro ⟨t, h1, h2⟩
        exact ⟨h1.symm, t, h2⟩

/-- The boolean substring test isSub agrees with decomposition of the
haystack around the needle. -/
lemma isSub_iff (n h : Str) : isSub n h = true ↔ ∃ p q, h = p ++ n ++ q := by
  induction h with
  | nil =>
    simp only [isSub, List.isEmpty_iff]
    constructor
    · rintro rfl
      exact ⟨[], [], rfl⟩
    · rintro ⟨p, q, e⟩
      rcases List.append_eq_nil.mp (List.append_eq_nil.mp e.symm).1 with ⟨-, h2⟩
      exact h2
  | cons c rest ih =>
    simp only [isSub, Bool.or_eq_true, isPrefixOf_iff_append, ih]
    constructor
    · rintro (⟨t, ht⟩ | ⟨p, q, hpq⟩)
      · exact ⟨[], t, by simp [ht]⟩
      · exact ⟨c :: p, q, by simp [hpq]⟩
    · rintro ⟨p, q, e⟩
      cases p with
      | nil =>
        left
        exact ⟨q, by simpa using e⟩
      | cons x xs =>
        right
        rw [List.cons_append, List.cons_append, List.cons.injEq] at e
        exact ⟨xs, q, e.2⟩

/-- C1. Runtime-platform derivation from a platform spec is total (it is
a total function of the embedding) and deterministic: each of the four
enumerated specs maps to its fixed table value, and every spec outside
the table maps to x64 exactly when it contains the substring amd64 and to
x86 otherwise. -/
theorem c1_runtime_platform_derivation :
    platSpecToVcruntimePlat (("x86").data) = ("x86").data ∧
    platSpecToVcruntimePlat (("x86_amd64").data) = ("x64").data ∧
    platSpecToVcruntimePlat (("x86_arm").data) = ("arm").data ∧
    platSpecToVcruntimePlat (("x86_arm64").data) = ("arm64").data ∧
    ∀ s : Str,
      s ∉ [("x86").data, ("x86_amd64").data, ("x86_arm").data, ("x86_arm64").data] →
      (((∃ p q, s = p ++ ("amd64").data ++ q) → platSpecToVcruntimePlat s = ("x64").data) ∧
       ((¬ ∃ p q, s = p ++ ("amd64").data ++ q) → platSpecToVcruntimePlat s = ("x86").data)) := by
  refine ⟨by decide, by decide, by decide, by decide, ?_⟩
  intro s hs
  simp only [List.mem_cons, List.mem_singleton, not_or] at hs
  obtain ⟨h1, h2, h3, h4, -⟩ := hs
  have e1 : (s == ("x86").data) = false := beq_eq_false_iff_ne.mpr h1
  have e2 : (s == ("x86_amd64").data) = false := beq_eq_false_iff_ne.mpr h2
  have e3 : (s == ("x86_arm").data) = false := beq_eq_false_iff_ne.mpr h3
  have e4 : (s == ("x86_arm64").data) = false := beq_eq_false_iff_ne.mpr h4
  have hlook : List.lookup s PLAT_SPEC_TO_RUNTIME = none := by
    simp [PLAT_SPEC_TO_RUNTIME, List.lookup, e1, e2, e3, e4]
  constructor
  · rintro ⟨p, q, e⟩
    have hsub : isSub (("amd64").data) s = true := (isSub_iff _ _).mpr ⟨p, q, e⟩
    simp [platSpecToVcruntimePlat, hlook, hsub]
  · intro hne
    have hsub : isSub (("amd64").data) s = false := by
      rcases Bool.eq_false_or_eq_true (isSub (("amd64").data) s) with h | h
      · exact absurd ((isSub_iff _ _).mp h) hne
      · exact h
    simp [platSpecToVcruntimePlat, hlook, hsub]

/-- Witness for C1 at the synthetic specs from the specification: a
string containing amd64 derives x64, a string without it derives x86. -/
theorem c1_runtime_platform_derivation_witness :
    platSpecToVcruntimePlat (("foo_amd64_bar").data) = ("x64").data ∧
    platSpecToVcruntimePlat (("foo").data) = ("x86").data := by
  constructor
  · exact (c1_runtime_platform_derivation.2.2.2.2 _ (by decide)).1
      ⟨("foo_").data, ("_bar").data, by decide⟩
  · refine (c1_runtime_platform_derivation.2.2.2.2 _ (by decide)).2 ?_
    rintro ⟨p, q, e⟩
    have hl := congrArg List.length e
    simp [List.length_append] at hl
    omega

/-- C4, recorded as a code bug. At the scenario of the claim (an open
key with entries named 10, bogus, 14, 13, all of string type with
existing directories), _msvc14_find_vc2015 raises the uncaught NameError
of line 123 before enumerating anything, and the installer-query
strategy finds nothing on that machine; the enumeration body as written
in the source text, folded over those same entries, would have selected
version 14 with its directory, as the claim and the distutils backport
named in the docstring describe. -/
theorem c4_vc2015_selection_bug :
    _msvc14_find_vc2015 c4ExampleWorld = .error nameErrItertools ∧
    _msvc14_find_vc2017 c4ExampleWorld = (none, none) ∧
    c4Entries.foldl (vc2015Step c4ExampleWorld) (0, none) =
      (14, some (("C:\\VC14").data)) :=
  ⟨rfl, rfl, by decide⟩

/-- C5, recorded as a code bug. The installer-query strategy is total
and classifies every outcome as the none-none result or a found root
with an existing directory, and _msvc14_find_vc2015 swallows an opening
failure of the registry key into the none-none pair; but whenever the
key opens, even empty, the function raises the uncaught NameError of
line 123 instead of returning normally, and that exception is not of
the recoverable DistutilsPlatformError kind, so no strategy error
swallowing applies to it. -/
theorem c5_strategies_namerror_bug :
    (∀ w : World, _msvc14_find_vc2017 w = (none, none) ∨
      ∃ p, _msvc14_find_vc2017 w = (some 15, some p) ∧ w.isdir p = true) ∧
    _msvc14_find_vc2015 c5OpenFailWorld = .ok (none, none) ∧
    _msvc14_find_vc2015 c5EmptyKeyWorld = .error nameErrItertools ∧
    nameErrItertools.kind ≠ ErrKind.distutilsPlatformError := by
  refine ⟨?_, rfl, rfl, by decide⟩
  intro w
  unfold _msvc14_find_vc2017
  split
  · exact Or.inl rfl
  · split
    · exact Or.inl rfl
    · split
      · exact Or.inl rfl
      · split
        · next hdir => exact Or.inr ⟨_, rfl, hdir⟩
        · exact Or.inl rfl

/-- Structure of the partition of a line at the first equals sign: the
three parts reassemble to the line, the part before the separator holds
no equals sign, and the separator is the equals sign or, when the line
holds none, both separator and tail are empty. -/
lemma pyPartitionEq_spec (line : Str) :
    line = (pyPartitionEq line).1 ++ (pyPartitionEq line).2.1 ++ (pyPartitionEq line).2.2 ∧
    ('=') ∉ (pyPartitionEq line).1 ∧
    ((pyPartitionEq line).2.1 = ['='] ∨
      ((pyPartitionEq line).2.1 = [] ∧ (pyPartitionEq line).2.2 = [])) := by
  induction line with
  | nil => exact ⟨rfl, by decide, Or.inr ⟨rfl, rfl⟩⟩
  | cons c rest ih =>
    by_cases hc : c = '='
    · subst hc
      have h : pyPartitionEq ('=' :: rest) = ([], ['='], rest) := rfl
      rw [h]
      exact ⟨rfl, by simp, Or.inl rfl⟩
    · obtain ⟨ih1, ih2, ih3⟩ := ih
      have hpp : pyPartitionEq (c :: rest) =
          (c :: (pyPartitionEq rest).1, (pyPartitionEq rest).2.1, (pyPartitionEq rest).2.2) := by
        simp [pyPartitionEq, hc]
      rw [hpp]
      refine ⟨?_, ?_, ih3⟩
      · exact congrArg (List.cons c) ih1
      · simp only [List.mem_cons, not_or]
        exact ⟨fun he => hc he.symm, ih2⟩

/-- C6. Environment-dump parsing keeps exactly the lines whose part
before the first equals sign and part after it are both nonempty,
lower-casing the name: membership in the parsed stream is characterized
by such a line, a line always partitions as name, separator, value with
no equals sign inside the name, and the synthetic dump of the
specification parses to exactly the single entry foo to bar. -/
theorem c6_env_parsing :
    (∀ out k v, (k, v) ∈ envPairs out ↔
      ∃ line ∈ pySplitlines out,
        (pyPartitionEq line).1 ≠ [] ∧ (pyPartitionEq line).2.2 ≠ [] ∧
        k = pyLower (pyPartitionEq line).1 ∧ v = (pyPartitionEq line).2.2) ∧
    (∀ line : Str,
      line = (pyPartitionEq line).1 ++ (pyPartitionEq line).2.1 ++ (pyPartitionEq line).2.2 ∧
      ('=') ∉ (pyPartitionEq line).1 ∧
      ((pyPartitionEq line).2.1 = ['='] ∨
        ((pyPartitionEq line).2.1 = [] ∧ (pyPartitionEq line).2.2 = []))) ∧
    dictOf (envPairs (("FOO=bar\nBAZ=\nQUX\n=empty\n").data)) =
      [(("foo").data, ("bar").data)] := by
  refine ⟨?_, pyPartitionEq_spec, by decide⟩
  intro out k v
  unfold envPairs
  rw [List.mem_filterMap]
  constructor
  · rintro ⟨line, hline, hf⟩
    dsimp only at hf
    by_cases hc : (pyPartitionEq line).1 ≠ [] ∧ (pyPartitionEq line).2.2 ≠ []
    · rw [if_pos hc] at hf
      rw [Option.some.injEq, Prod.mk.injEq] at hf
      exact ⟨line, hline, hc.1, hc.2, hf.1.symm, hf.2.symm⟩
    · rw [if_neg hc] at hf
      exact absurd hf (by simp)
  · rintro ⟨line, hline, h1, h2, rfl, rfl⟩
    refine ⟨line, hline, ?_⟩
    dsimp only
    rw [if_pos ⟨h1, h2⟩]

/-- Witness for C6: the characterization produces the entry foo to bar
from the line FOO=bar of the synthetic dump, and the resulting dictionary
holds exactly that entry. -/
theorem c6_env_parsing_witness :
    (("foo").data, ("bar").data) ∈ envPairs (("FOO=bar\nBAZ=\nQUX\n=empty\n").data) ∧
    dictOf (envPairs (("FOO=bar\nBAZ=\nQUX\n=empty\n").data)) =
      [(("foo").data, ("bar").data)] := by
  constructor
  · exact (c6_env_parsing.1 _ _ _).mpr
      ⟨("FOO=bar").data, by decide, by decide, by decide, by decide, by decide⟩
  · exact c6_env_parsing.2.2

/-- A truthy optional string is some nonempty string. -/
lemma pyTruthy_some (o : Option Str) (h : pyTruthy o = true) :
    ∃ s, o = some s ∧ s ≠ [] := by
  cases o with
  | none => exact absurd h (by simp [pyTruthy])
  | some s =>
    refine ⟨s, rfl, ?_⟩
    simp only [pyTruthy, decide_eq_true_eq] at h
    intro he
    exact h (by simp [he])

/-- Lower-casing one character is idempotent. -/
lemma pyCharLower_idem (c : Char) : pyCharLower (pyCharLower c) = pyCharLower c := by
  unfold pyCharLower
  by_cases h : 65 ≤ c.toNat ∧ c.toNat ≤ 90
  · rw [if_pos h]
    obtain ⟨h1, h2⟩ := h
    interval_cases h3 : c.toNat
    all_goals decide
  · rw [if_neg h, if_neg h]

/-- Lower-casing a string is idempotent. -/
lemma pyLower_idem (s : Str) : pyLower (pyLower s) = pyLower s := by
  unfold pyLower
  rw [List.map_map]
  exact List.map_congr_left (fun c _ => pyCharLower_idem c)

/-- Lower-casing keeps a string nonempty. -/
lemma pyLower_ne_nil (s : Str) (h : s ≠ []) : pyLower s ≠ [] := by
  unfold pyLower
  cases s with
  | nil => exact absurd rfl h
  | cons c rest => simp

/-- Every entry of a dict after an insert is an old entry, an old entry
with the new value, or the new pair itself. -/
lemma mem_dictInsert (d : EnvMap) (k v : Str) (p : Str × Str) (hp : p ∈ dictInsert d k v) :
    p ∈ d ∨ (∃ x ∈ d, p = (x.1, v)) ∨ p = (k, v) := by
  unfold dictInsert at hp
  by_cases hany : d.any (fun q => q.1 == k) = true
  · rw [if_pos hany] at hp
    rw [List.mem_map] at hp
    obtain ⟨x, hx, hfx⟩ := hp
    by_cases hbx : (x.1 == k) = true
    · rw [if_pos hbx] at hfx
      exact Or.inr (Or.inl ⟨x, hx, hfx.symm⟩)
    · rw [if_neg hbx] at hfx
      exact Or.inl (hfx ▸ hx)
  · rw [if_neg hany] at hp
    rcases List.mem_append.mp hp with h | h
    · exact Or.inl h
    · rw [List.mem_singleton] at h
      exact Or.inr (Or.inr h)

/-- Key and value predicates survive folding dict inserts over a stream
of pairs that satisfies them. -/
lemma pred_foldl_dictInsert (P Q : Str → Prop) :
    ∀ (pairs : List (Str × Str)) (d : EnvMap),
      (∀ p ∈ d, P p.1 ∧ Q p.2) → (∀ x ∈ pairs, P x.1 ∧ Q x.2) →
      ∀ p ∈ pairs.foldl (fun d2 kv => dictInsert d2 kv.1 kv.2) d, P p.1 ∧ Q p.2 := by
  intro pairs
  induction pairs with
  | nil =>
    intro d hd hx p hp
    exact hd p hp
  | cons x rest ih =>
    intro d hd hx p hp
    rw [List.foldl_cons] at hp
    refine ih (dictInsert d x.1 x.2) ?_ (fun y hy => hx y (List.mem_cons_of_mem _ hy)) p hp
    intro q hq
    rcases mem_dictInsert d x.1 x.2 q hq with h1 | ⟨y, hy, rfl⟩ | rfl
    · exact hd q h1
    · exact ⟨(hd y hy).1, (hx x (List.mem_cons_self _ _)).2⟩
    · exact hx x (List.mem_cons_self _ _)

/-- Key and value predicates transfer from a stream of pairs to the dict
it builds. -/
lemma pred_dictOf (P Q : Str → Prop) (pairs : List (Str × Str))
    (h : ∀ x ∈ pairs, P x.1 ∧ Q x.2) :
    ∀ p ∈ dictOf pairs, P p.1 ∧ Q p.2 :=
  pred_foldl_dictInsert P Q pairs [] (by simp) h

/-- Looking up the overwritten key after an in-place dict overwrite
yields the new value. -/
lemma lookup_map_overwrite (k v : Str) :
    ∀ d : EnvMap, d.any (fun q => q.1 == k) = true →
      List.lookup k (d.map (fun p => if p.1 == k then (p.1, v) else p)) = some v := by
  intro d
  induction d with
  | nil =>
    intro h
    exact absurd h (by simp)
  | cons x rest ih =>
    obtain ⟨x1, x2⟩ := x
    intro h
    by_cases hx : (x1 == k) = true
    · rw [List.map_cons]
      dsimp only at hx ⊢
      rw [if_pos hx]
      have hxe : x1 = k := beq_iff_eq.mp hx
      subst hxe
      simp [List.lookup]
    · rw [List.map_cons]
      dsimp only at hx ⊢
      rw [if_neg hx]
      have hkx : (k == x1) = false :=
        beq_eq_false_iff_ne.mpr (fun he => hx (beq_iff_eq.mpr he.symm))
      rw [List.lookup_cons]
      rw [hkx]
      apply ih
      simp only [List.any_cons] at h
      rcases Bool.or_eq_true_iff.mp h with h2 | h2
      · exact absurd h2 hx
      · exact h2

/-- Looking up a key absent from a dict after appending it yields the
appended value. -/
lemma lookup_append_self (k v : Str) :
    ∀ d : EnvMap, d.any (fun q => q.1 == k) = false →
      List.lookup k (d ++ [(k, v)]) = some v := by
  intro d
  induction d with
  | nil =>
    intro h
    simp [List.lookup]
  | cons x rest ih =>
    obtain ⟨x1, x2⟩ := x
    intro h
    simp only [List.any_cons, Bool.or_eq_false_iff] at h
    have hkx : (k == x1) = false :=
      beq_eq_false_iff_ne.mpr (fun he => by
        rw [he] at h
        exact absurd h.1 (by simp))
    rw [List.cons_append, List.lookup_cons, hkx]
    exact ih h.2

/-- Looking up the inserted key after a dict item assignment yields the
assigned value. -/
lemma lookup_dictInsert_self (d : EnvMap) (k v : Str) :
    List.lookup k (dictInsert d k v) = some v := by
  unfold dictInsert
  by_cases hany : d.any (fun q => q.1 == k) = true
  · rw [if_pos hany]
    exact lookup_map_overwrite k v d hany
  · rw [if_neg hany]
    exact lookup_append_self k v d (Bool.eq_false_iff.mpr hany)

/-- Every pair of the parsed environment stream has a nonempty key fixed
by lower-casing and a nonempty value. -/
lemma envPairs_pred (out : Str) :
    ∀ x ∈ envPairs out, (x.1 ≠ [] ∧ pyLower x.1 = x.1) ∧ x.2 ≠ [] := by
  intro x hx
  unfold envPairs at hx
  rw [List.mem_filterMap] at hx
  obtain ⟨line, hline, hf⟩ := hx
  dsimp only at hf
  by_cases hc : (pyPartitionEq line).1 ≠ [] ∧ (pyPartitionEq line).2.2 ≠ []
  · rw [if_pos hc] at hf
    rw [Option.some.injEq] at hf
    subst hf
    exact ⟨⟨pyLower_ne_nil _ hc.1, pyLower_idem _⟩, hc.2⟩
  · rw [if_neg hc] at hf
    exact absurd hf (by simp)

/-- C10. Every environment map produced by the non-override synthesis
path has keys that are nonempty and fixed by lower-casing, and nonempty
values: the parsed pairs are lower-cased nonempty names with nonempty
values, and the injected redistributable entry has a lower-case literal
key and a truthy (hence nonempty) path value. -/
theorem c10_env_invariant (w : World) (plat_spec : Str) (env : EnvMap)
    (hmarker : (lookupEnv w (("DISTUTILS_USE_SDK").data)).isSome = false)
    (hok : _msvc14_get_vc_env w plat_spec = .ok env) :
    ∀ p ∈ env, p.1 ≠ [] ∧ pyLower p.1 = p.1 ∧ p.2 ≠ [] := by
  unfold _msvc14_get_vc_env at hok
  rw [if_neg (by simp [hmarker])] at hok
  rcases hfv : _msvc14_find_vcvarsall w plat_spec with e | fv
  · rw [hfv] at hok
    exact Except.noConfusion hok
  · rw [hfv] at hok
    dsimp only at hok
    by_cases htr : pyTruthy fv.1 = true
    · rw [if_neg (not_not_intro htr)] at hok
      rcases hso : w.shellOut (vcvarsCmdLine (fv.1.getD []) plat_spec) with - | bytes
      · rw [hso] at hok
        exact Except.noConfusion hok
      · rw [hso] at hok
        dsimp only at hok
        by_cases hrt : pyTruthy fv.2 = true
        · rw [if_pos hrt, Except.ok.injEq] at hok
          subst hok
          intro p hp
          obtain ⟨rt, hrt2, hrtne⟩ := pyTruthy_some _ hrt
          rcases mem_dictInsert _ _ _ _ hp with h1 | ⟨y, hy, rfl⟩ | rfl
          · have h2 := pred_dictOf (fun k2 => k2 ≠ [] ∧ pyLower k2 = k2) (fun v2 => v2 ≠ [])
              _ (envPairs_pred _) p h1
            exact ⟨h2.1.1, h2.1.2, h2.2⟩
          · have h2 := pred_dictOf (fun k2 => k2 ≠ [] ∧ pyLower k2 = k2) (fun v2 => v2 ≠ [])
              _ (envPairs_pred _) y hy
            refine ⟨h2.1.1, h2.1.2, ?_⟩
            dsimp only
            rw [hrt2]
            simpa using hrtne
          · refine ⟨?_, ?_, ?_⟩
            · show ("py_vcruntime_redist").data ≠ ([] : Str)
              decide
            · show pyLower (("py_vcruntime_redist").data) = ("py_vcruntime_redist").data
              decide
            · dsimp only
              rw [hrt2]
              simpa using hrtne
        · rw [if_neg hrt, Except.ok.injEq] at hok
          subst hok
          intro p hp
          have h2 := pred_dictOf (fun k2 => k2 ≠ [] ∧ pyLower k2 = k2) (fun v2 => v2 ≠ [])
            _ (envPairs_pred _) p hp
          exact ⟨h2.1.1, h2.1.2, h2.2⟩
    · rw [if_pos htr] at hok
      exact Except.noConfusion hok

/-- Witness for C10: the invariant instantiated on a concrete successful
synthesis, at the single entry of the resulting map. -/
theorem c10_env_invariant_witness :
    (("py_vcruntime_redist").data ≠ ([] : Str)) ∧
    pyLower (("py_vcruntime_redist").data) = ("py_vcruntime_redist").data ∧
    (("C:\\nope").data ≠ ([] : Str)) :=
  c10_env_invariant vcWorld (("x86").data)
    [(("py_vcruntime_redist").data, ("C:\\nope").data)] rfl rfl
    ((("py_vcruntime_redist").data, ("C:\\nope").data)) (by decide)

/-- Whenever _msvc14_find_vcvarsall returns at all, its redistributable
component is none or a nonempty path verified to exist as a file: the
candidate is dropped whenever it is falsy or the existence check fails,
and a missing redistributable never turns the result into a failure. -/
lemma find_vcvarsall_snd_spec (w : World) (plat_spec : Str) :
    ∀ fv, _msvc14_find_vcvarsall w plat_spec = .ok fv →
      fv.2 = none ∨ ∃ p, fv.2 = some p ∧ p ≠ [] ∧ w.isfile p = true := by
  intro fv hok
  unfold _msvc14_find_vcvarsall at hok
  rcases hc : vc14Candidates w plat_spec with e | bdrt
  · rw [hc] at hok
    exact Except.noConfusion hok
  · rw [hc] at hok
    dsimp only at hok
    by_cases h1 : pyTruthy bdrt.1 = true
    · rw [if_neg (not_not_intro h1)] at hok
      by_cases h2 : w.isfile (joinPath (bdrt.1.getD []) (("vcvarsall.bat").data)) = true
      · rw [if_neg (not_not_intro h2), Except.ok.injEq] at hok
        subst hok
        dsimp only
        by_cases h3 : pyTruthy bdrt.2 = true ∧ w.isfile (bdrt.2.getD []) = true
        · rw [if_pos h3]
          obtain ⟨s, hs, hsne⟩ := pyTruthy_some _ h3.1
          refine Or.inr ⟨s, hs, hsne, ?_⟩
          have h4 := h3.2
          rw [hs] at h4
          simpa using h4
        · rw [if_neg h3]
          exact Or.inl rfl
      · rw [if_pos h2, Except.ok.injEq] at hok
        subst hok
        exact Or.inl rfl
    · rw [if_pos h1, Except.ok.injEq] at hok
      subst hok
      exact Or.inl rfl

/-- Counterexample to C7 as stated: on a machine where the vcvars dump
itself defines the dedicated redistributable variable while the computed
redistributable is missing, the synthesized map holds the dedicated key
mapped to a path that does not exist as a file. -/
theorem c7_counterexample :
    _msvc14_get_vc_env vcWorld (("x86").data) =
      .ok [(("py_vcruntime_redist").data, ("C:\\nope").data)] ∧
    List.lookup (("py_vcruntime_redist").data)
      [(("py_vcruntime_redist").data, ("C:\\nope").data)] = some (("C:\\nope").data) ∧
    vcWorld.isfile (("C:\\nope").data) = false :=
  ⟨rfl, rfl, rfl⟩

/-- C7 amended. A computed redistributable path is validated for
existence and silently downgraded to none when missing, and a missing
redistributable is never a failure cause; provided the parsed subprocess
dump itself does not define the dedicated redistributable key, the
synthesized map holds that key mapped to an existing file path or not at
all. -/
theorem c7_redist_validation_amended (w : World) (plat_spec : Str) :
    (∀ fv, _msvc14_find_vcvarsall w plat_spec = .ok fv →
      fv.2 = none ∨ ∃ p, fv.2 = some p ∧ p ≠ [] ∧ w.isfile p = true) ∧
    (∀ env, (lookupEnv w (("DISTUTILS_USE_SDK").data)).isSome = false →
      _msvc14_get_vc_env w plat_spec = .ok env →
      (∀ fv bytes, _msvc14_find_vcvarsall w plat_spec = .ok fv →
        w.shellOut (vcvarsCmdLine (fv.1.getD []) plat_spec) = some bytes →
        List.lookup (("py_vcruntime_redist").data)
          (dictOf (envPairs (decodeUtf16leReplace bytes))) = none) →
      (List.lookup (("py_vcruntime_redist").data) env = none ∨
        ∃ p, List.lookup (("py_vcruntime_redist").data) env = some p ∧ w.isfile p = true)) := by
  refine ⟨find_vcvarsall_snd_spec w plat_spec, ?_⟩
  intro env hmarker hok hno
  unfold _msvc14_get_vc_env at hok
  rw [if_neg (by simp [hmarker])] at hok
  rcases hfv : _msvc14_find_vcvarsall w plat_spec with e | fv
  · rw [hfv] at hok
    exact Except.noConfusion hok
  · rw [hfv] at hok
    dsimp only at hok
    by_cases htr : pyTruthy fv.1 = true
    · rw [if_neg (not_not_intro htr)] at hok
      rcases hso : w.shellOut (vcvarsCmdLine (fv.1.getD []) plat_spec) with - | bytes
      · rw [hso] at hok
        exact Except.noConfusion hok
      · rw [hso] at hok
        dsimp only at hok
        by_cases hrt : pyTruthy fv.2 = true
        · rw [if_pos hrt, Except.ok.injEq] at hok
          subst hok
          rcases find_vcvarsall_snd_spec w plat_spec fv hfv with hnone | ⟨p, hp, -, hpf⟩
          · obtain ⟨rt, hrt2, -⟩ := pyTruthy_some _ hrt
            rw [hnone] at hrt2
            exact absurd hrt2 (by simp)
          · right
            refine ⟨fv.2.getD [], lookup_dictInsert_self _ _ _, ?_⟩
            rw [hp]
            simpa using hpf
        · rw [if_neg hrt, Except.ok.injEq] at hok
          subst hok
          exact Or.inl (hno fv bytes hfv hso)
    · rw [if_pos htr] at hok
      exact Except.noConfusion hok

/-- Witness for the amended C7: on a machine with no redistributable and
a clean dump, the synthesized map has no redistributable key at all. -/
theorem c7_redist_validation_amended_witness :
    List.lookup (("py_vcruntime_redist").data) [(("foo").data, ("bar").data)] = none ∨
      ∃ p, List.lookup (("py_vcruntime_redist").data) [(("foo").data, ("bar").data)] = some p ∧
        vcCleanWorld.isfile p = true := by
  refine (c7_redist_validation_amended vcCleanWorld (("x86").data)).2
    [(("foo").data, ("bar").data)] rfl rfl ?_
  intro fv bytes hfv hb
  have hb2 : encUtf16le (("FOO=bar\r\n").data) = bytes := Option.some.inj hb
  subst hb2
  decide

/-- An error of _msvc14_find_vc2015 is always the uncaught NameError. -/
lemma vc2015_error_spec (w : World) :
    ∀ e, _msvc14_find_vc2015 w = .error e → e = nameErrItertools := by
  intro e h
  unfold _msvc14_find_vc2015 at h
  rcases hk : w.sxsKey with - | entries
  · rw [hk] at h
    exact Except.noConfusion h
  · rw [hk] at h
    injection h with h2
    exact h2.symm

/-- An error of the candidate computation is always the uncaught
NameError escaping the 2015 strategy. -/
lemma vc14Candidates_error_spec (w : World) (plat_spec : Str) :
    ∀ e, vc14Candidates w plat_spec = .error e → e = nameErrItertools := by
  intro e h
  unfold vc14Candidates at h
  dsimp only at h
  by_cases h0 : pyTruthy (_msvc14_find_vc2017 w).2 = true
  · rw [if_neg (not_not_intro h0)] at h
    exact Except.noConfusion h
  · rw [if_pos h0] at h
    rcases h15 : _msvc14_find_vc2015 w with e2 | bv15
    · rw [h15] at h
      dsimp only at h
      injection h with h2
      exact h2 ▸ vc2015_error_spec w e2 h15
    · rw [h15] at h
      dsimp only at h
      by_cases hv : pyTruthyVer bv15.1 = true
      · rw [if_pos hv] at h
        exact Except.noConfusion h
      · rw [if_neg hv] at h
        exact Except.noConfusion h

/-- An error of _msvc14_find_vcvarsall is always the uncaught NameError
escaping the 2015 strategy. -/
lemma find_vcvarsall_error_spec (w : World) (plat_spec : Str) :
    ∀ e, _msvc14_find_vcvarsall w plat_spec = .error e → e = nameErrItertools := by
  intro e h
  unfold _msvc14_find_vcvarsall at h
  rcases hc : vc14Candidates w plat_spec with e2 | bdrt
  · rw [hc] at h
    dsimp only at h
    injection h with h2
    exact h2 ▸ vc14Candidates_error_spec w plat_spec e2 hc
  · rw [hc] at h
    dsimp only at h
    by_cases h1 : pyTruthy bdrt.1 = true
    · rw [if_neg (not_not_intro h1)] at h
      by_cases h2 : w.isfile (joinPath (bdrt.1.getD []) (("vcvarsall.bat").data)) = true
      · rw [if_neg (not_not_intro h2)] at h
        exact Except.noConfusion h
      · rw [if_pos h2] at h
        exact Except.noConfusion h
    · rw [if_pos h1] at h
      exact Except.noConfusion h

/-- Counterexample to C9 as stated: on a machine whose enumeration key
opens, the non-override synthesis path terminates with the uncaught
NameError escaping the 2015 strategy, which is neither the
missing-script failure nor the subprocess failure (both of those are
DistutilsPlatformError values). -/
theorem c9_counterexample :
    _msvc14_get_vc_env c5EmptyKeyWorld (("x86").data) = .error nameErrItertools ∧
    nameErrItertools.kind ≠ ErrKind.distutilsPlatformError :=
  ⟨rfl, by decide⟩

/-- C9 amended. Decoding of the vcvars dump is total (the replace
decoder is a total function of the byte sequence), so synthesis never
fails through a decode error: whenever the script is found and the
subprocess returns any byte sequence whatsoever, synthesis succeeds;
every failure of the non-override synthesis path is the missing-script
DistutilsPlatformError, the command-execution DistutilsPlatformError,
or an error propagated unchanged out of discovery, which in this code
is only the uncaught NameError of the 2015 registry enumeration. -/
theorem c9_decode_totality_amended (w : World) (plat_spec : Str)
    (hmarker : (lookupEnv w (("DISTUTILS_USE_SDK").data)).isSome = false) :
    (∀ e, _msvc14_get_vc_env w plat_spec = .error e →
      (_msvc14_find_vcvarsall w plat_spec = .error e ∧ e = nameErrItertools) ∨
      (∃ fv, _msvc14_find_vcvarsall w plat_spec = .ok fv ∧ ¬ pyTruthy fv.1 = true ∧
        e = ⟨ErrKind.distutilsPlatformError, ("Unable to find vcvarsall.bat").data⟩) ∨
      (∃ fv, _msvc14_find_vcvarsall w plat_spec = .ok fv ∧ pyTruthy fv.1 = true ∧
        w.shellOut (vcvarsCmdLine (fv.1.getD []) plat_spec) = none ∧
        e = ⟨ErrKind.distutilsPlatformError,
          ("Error executing ").data ++ vcvarsCmdLine (fv.1.getD []) plat_spec⟩)) ∧
    (∀ fv bytes, _msvc14_find_vcvarsall w plat_spec = .ok fv → pyTruthy fv.1 = true →
      w.shellOut (vcvarsCmdLine (fv.1.getD []) plat_spec) = some bytes →
      ∃ env, _msvc14_get_vc_env w plat_spec = .ok env) := by
  constructor
  · intro e herr
    unfold _msvc14_get_vc_env at herr
    rw [if_neg (by simp [hmarker])] at herr
    rcases hfv : _msvc14_find_vcvarsall w plat_spec with e2 | fv
    · rw [hfv] at herr
      dsimp only at herr
      injection herr with h2
      subst h2
      exact Or.inl ⟨rfl, find_vcvarsall_error_spec w plat_spec e2 hfv⟩
    · rw [hfv] at herr
      dsimp only at herr
      by_cases htr : pyTruthy fv.1 = true
      · rw [if_neg (not_not_intro htr)] at herr
        rcases hso : w.shellOut (vcvarsCmdLine (fv.1.getD []) plat_spec) with - | bytes
        · rw [hso] at herr
          injection herr with h2
          exact Or.inr (Or.inr ⟨fv, rfl, htr, hso, h2.symm⟩)
        · rw [hso] at herr
          dsimp only at herr
          by_cases hrt : pyTruthy fv.2 = true
          · rw [if_pos hrt] at herr
            exact Except.noConfusion herr
          · rw [if_neg hrt] at herr
            exact Except.noConfusion herr
      · rw [if_pos htr] at herr
        injection herr with h2
        exact Or.inr (Or.inl ⟨fv, rfl, htr, h2.symm⟩)
  · intro fv bytes hfv htr hso
    unfold _msvc14_get_vc_env
    rw [if_neg (by simp [hmarker]), hfv]
    dsimp only
    rw [if_neg (not_not_intro htr), hso]
    dsimp only
    by_cases hrt : pyTruthy fv.2 = true
    · rw [if_pos hrt]
      exact ⟨_, rfl⟩
    · rw [if_neg hrt]
      exact ⟨_, rfl⟩

/-- Witness for the amended C9: the failure classification at a machine
whose registry hive is absent (missing-script mode), and success on a
machine whose subprocess output is an arbitrary byte dump. -/
theorem c9_decode_totality_amended_witness :
    ((_msvc14_find_vcvarsall c5OpenFailWorld (("x86").data) =
        .error ⟨ErrKind.distutilsPlatformError, ("Unable to find vcvarsall.bat").data⟩ ∧
      (⟨ErrKind.distutilsPlatformError, ("Unable to find vcvarsall.bat").data⟩ : PyErr) =
        nameErrItertools) ∨
     (∃ fv, _msvc14_find_vcvarsall c5OpenFailWorld (("x86").data) = .ok fv ∧
        ¬ pyTruthy fv.1 = true ∧
        (⟨ErrKind.distutilsPlatformError, ("Unable to find vcvarsall.bat").data⟩ : PyErr) =
          ⟨ErrKind.distutilsPlatformError, ("Unable to find vcvarsall.bat").data⟩) ∨
     (∃ fv, _msvc14_find_vcvarsall c5OpenFailWorld (("x86").data) = .ok fv ∧
        pyTruthy fv.1 = true ∧
        c5OpenFailWorld.shellOut (vcvarsCmdLine (fv.1.getD []) (("x86").data)) = none ∧
        (⟨ErrKind.distutilsPlatformError, ("Unable to find vcvarsall.bat").data⟩ : PyErr) =
          ⟨ErrKind.distutilsPlatformError,
            ("Error executing ").data ++ vcvarsCmdLine (fv.1.getD []) (("x86").data)⟩)) ∧
    (∃ env, _msvc14_get_vc_env vcWorld (("x86").data) = .ok env) :=
  ⟨(c9_decode_totality_amended c5OpenFailWorld (("x86").data) rfl).1
      ⟨ErrKind.distutilsPlatformError, ("Unable to find vcvarsall.bat").data⟩ rfl,
   (c9_decode_totality_amended vcWorld (("x86").data) rfl).2 _ _ rfl rfl rfl⟩

/-- Counterexample to C3 as stated: although the override marker is
present, msvc14_get_vc_env runs the primary unpatched attempt first, so
when that attempt succeeds with some map, that map is returned instead of
the lower-cased current process environment. -/
theorem c3_counterexample :
    (lookupEnv sdkWorld (("DISTUTILS_USE_SDK").data)).isSome = true ∧
    msvc14_get_vc_env (.ok [(("primary").data, ("env").data)]) sdkWorld (("x86").data) =
      .ok [(("primary").data, ("env").data)] ∧
    [(("primary").data, ("env").data)] ≠
      dictOf (sdkWorld.environ.map (fun kv => (pyLower kv.1, kv.2))) := by
  refine ⟨rfl, rfl, ?_⟩
  decide

/-- C3 amended. When the override marker is present, the synthesis path
_msvc14_get_vc_env short-circuits before any discovery: it returns the
current process environment with lower-cased keys and unchanged values,
its result depends only on the environment (no registry, filesystem,
glob or subprocess input is consulted), and msvc14_get_vc_env reaches
this short circuit only after the primary unpatched attempt has failed
with a DistutilsPlatformError. -/
theorem c3_override_amended (w : World) (plat_spec : Str)
    (hmarker : (lookupEnv w (("DISTUTILS_USE_SDK").data)).isSome = true) :
    _msvc14_get_vc_env w plat_spec =
      .ok (dictOf (w.environ.map (fun kv => (pyLower kv.1, kv.2)))) ∧
    (∀ w2 : World, w2.environ = w.environ →
      _msvc14_get_vc_env w2 plat_spec = _msvc14_get_vc_env w plat_spec) ∧
    (∀ e : PyErr, e.kind = ErrKind.distutilsPlatformError →
      msvc14_get_vc_env (.error e) w plat_spec =
        .ok (dictOf (w.environ.map (fun kv => (pyLower kv.1, kv.2))))) := by
  have hmain : _msvc14_get_vc_env w plat_spec =
      .ok (dictOf (w.environ.map (fun kv => (pyLower kv.1, kv.2)))) := by
    unfold _msvc14_get_vc_env
    rw [if_pos hmarker]
  refine ⟨hmain, ?_, ?_⟩
  · intro w2 he
    have hm2 : (lookupEnv w2 (("DISTUTILS_USE_SDK").data)).isSome = true := by
      unfold lookupEnv
      rw [he]
      exact hmarker
    have hmain2 : _msvc14_get_vc_env w2 plat_spec =
        .ok (dictOf (w2.environ.map (fun kv => (pyLower kv.1, kv.2)))) := by
      unfold _msvc14_get_vc_env
      rw [if_pos hm2]
    rw [hmain, hmain2, he]
  · intro e he2
    unfold msvc14_get_vc_env
    dsimp only
    rw [if_pos he2, hmain]

/-- Witness for the amended C3: on the marker-carrying machine the
synthesis path returns the lower-cased environment, and the controller
does so as well once the primary attempt has failed. -/
theorem c3_override_amended_witness :
    _msvc14_get_vc_env sdkWorld (("x86").data) =
      .ok (dictOf (sdkWorld.environ.map (fun kv => (pyLower kv.1, kv.2)))) ∧
    msvc14_get_vc_env (.error ⟨ErrKind.distutilsPlatformError, ("boom").data⟩)
        sdkWorld (("x86").data) =
      .ok (dictOf (sdkWorld.environ.map (fun kv => (pyLower kv.1, kv.2)))) :=
  ⟨(c3_override_amended sdkWorld (("x86").data) rfl).1,
   (c3_override_amended sdkWorld (("x86").data) rfl).2.2 _ rfl⟩

/-- The one-decimal format of the version 14 is the string 14.0. -/
lemma fmt1_14 : fmt1 14 = ("14.0").data := by
  have h : round ((14 : ℚ) * 10) = (140 : ℤ) := by
    have h2 : ((14 : ℚ) * 10) = ((140 : ℤ) : ℚ) := by norm_num
    rw [h2, round_intCast]
  unfold fmt1
  rw [h]
  decide

/-- Augmenting the canonical vcvarsall-not-found failure with version 14
replaces the message with the build-tools guidance and keeps the kind. -/
lemma augment_unableMsg (k : ErrKind) :
    _augment_exception ⟨k, ("Unable to find vcvarsall.bat").data⟩ 14 =
      ⟨k, ("Microsoft Visual C++ 14.0 is required. Get it with \"Build Tools for Visual Studio\": https://visualstudio.microsoft.com/downloads/").data⟩ := by
  unfold _augment_exception
  dsimp only
  rw [if_pos (Or.inl (by decide))]
  rw [if_neg (by norm_num), if_pos (by norm_num)]
  rw [fmt1_14]
  congr 1

/-- Counterexample to C2 as stated: with nothing installed (the
registry hive absent, so discovery completes without raising) and the
primary attempt failing, the error finally returned to the caller is a
DistutilsPlatformError whose augmented message no longer contains the
phrase vcvarsall. -/
theorem c2_counterexample :
    msvc14_get_vc_env
        (.error ⟨ErrKind.distutilsPlatformError,
          ("Unable to find a compatible Visual Studio installation.").data⟩)
        c5OpenFailWorld (("x86").data) =
      .error ⟨ErrKind.distutilsPlatformError,
        ("Microsoft Visual C++ 14.0 is required. Get it with \"Build Tools for Visual Studio\": https://visualstudio.microsoft.com/downloads/").data⟩ ∧
    isSub (("vcvarsall").data)
      (("Microsoft Visual C++ 14.0 is required. Get it with \"Build Tools for Visual Studio\": https://visualstudio.microsoft.com/downloads/").data) = false := by
  constructor
  · unfold msvc14_get_vc_env
    dsimp only
    rw [if_pos rfl]
    have hsynth : _msvc14_get_vc_env c5OpenFailWorld (("x86").data) =
        .error ⟨ErrKind.distutilsPlatformError, ("Unable to find vcvarsall.bat").data⟩ := rfl
    rw [hsynth]
    dsimp only
    rw [if_pos rfl, augment_unableMsg]
  · decide

/-- C2 amended. When discovery completes with no installation root
found (rather than raising, which on this code requires the hive of the
2015 enumeration key to be absent) and the primary attempt has failed
with a DistutilsPlatformError, the synthesis stage fails with a
DistutilsPlatformError whose message contains the phrase vcvarsall
(Unable to find vcvarsall.bat), and the failure finally returned to the
caller is a DistutilsPlatformError whose message has been rewritten by
augmentation to the build-tools guidance, which no longer contains that
phrase. -/
theorem c2_total_failure_amended (w : World) (plat_spec : Str) (ue : PyErr)
    (hmarker : (lookupEnv w (("DISTUTILS_USE_SDK").data)).isSome = false)
    (hfind : _msvc14_find_vcvarsall w plat_spec = .ok (none, none))
    (hue : ue.kind = ErrKind.distutilsPlatformError) :
    (∃ e, _msvc14_get_vc_env w plat_spec = .error e ∧
      e.kind = ErrKind.distutilsPlatformError ∧
      isSub (("vcvarsall").data) e.msg = true) ∧
    msvc14_get_vc_env (.error ue) w plat_spec =
      .error ⟨ErrKind.distutilsPlatformError,
        ("Microsoft Visual C++ 14.0 is required. Get it with \"Build Tools for Visual Studio\": https://visualstudio.microsoft.com/downloads/").data⟩ := by
  have hsynth : _msvc14_get_vc_env w plat_spec =
      .error ⟨ErrKind.distutilsPlatformError, ("Unable to find vcvarsall.bat").data⟩ := by
    unfold _msvc14_get_vc_env
    rw [if_neg (by simp [hmarker]), hfind]
    dsimp only
    rw [if_pos (by decide)]
  refine ⟨⟨_, hsynth, rfl, by decide⟩, ?_⟩
  unfold msvc14_get_vc_env
  dsimp only
  rw [if_pos hue, hsynth]
  dsimp only
  rw [if_pos rfl, augment_unableMsg]

/-- Witness for the amended C2: the synthesis failure and the augmented
final failure on a machine with nothing installed. -/
theorem c2_total_failure_amended_witness :
    (∃ e, _msvc14_get_vc_env c5OpenFailWorld (("x86").data) = .error e ∧
      e.kind = ErrKind.distutilsPlatformError ∧
      isSub (("vcvarsall").data) e.msg = true) ∧
    msvc14_get_vc_env (.error ⟨ErrKind.distutilsPlatformError, ("x").data⟩)
        c5OpenFailWorld (("x86").data) =
      .error ⟨ErrKind.distutilsPlatformError,
        ("Microsoft Visual C++ 14.0 is required. Get it with \"Build Tools for Visual Studio\": https://visualstudio.microsoft.com/downloads/").data⟩ :=
  c2_total_failure_amended c5OpenFailWorld (("x86").data)
    ⟨ErrKind.distutilsPlatformError, ("x").data⟩ rfl rfl rfl

/-- Two decompositions of one list into a part and a nonempty suffix
agree on the last character. -/
lemma append_suffix_last_char (s t p l : Str) (h : s ++ t = p ++ l)
    (c1 c2 : Char) (ht : t.getLast? = some c1) (hl : l.getLast? = some c2) : c1 = c2 := by
  have h1 := congrArg List.getLast? h
  rw [List.getLast?_append, List.getLast?_append, ht, hl] at h1
  simpa using h1

/-- C8. Failure-message augmentation changes only the message and never
the kind: for a DistutilsPlatformError whose message mentions vcvarsall
or visual c, the augmented error keeps the kind of the original, its
message ends with the standalone-compiler download guidance exactly when
the requested family is 9.0, and it ends with the build-tools installer
guidance exactly when the family is at least 14.0. -/
theorem c8_augment_frame (e : PyErr) (version : ℚ)
    (hkind : e.kind = ErrKind.distutilsPlatformError)
    (hmention : isSub (("vcvarsall").data) (pyLower e.msg) = true ∨
      isSub (("visual c").data) (pyLower e.msg) = true) :
    (_augment_exception e version).kind = e.kind ∧
    ((∃ p, (_augment_exception e version).msg =
        p ++ (" Get it from http://aka.ms/vcpython27").data) ↔ version = 9) ∧
    ((∃ p, (_augment_exception e version).msg =
        p ++ (" Get it with \"Build Tools for Visual Studio\": https://visualstudio.microsoft.com/downloads/").data) ↔
      14 ≤ version) := by
  unfold _augment_exception
  dsimp only
  rw [if_pos hmention]
  refine ⟨rfl, ?_⟩
  by_cases h9 : version = (9 : ℚ)
  · rw [if_pos h9]
    constructor
    · exact ⟨fun _ => h9, fun _ => ⟨_, rfl⟩⟩
    · constructor
      · rintro ⟨p, hp⟩
        have hc := append_suffix_last_char _ _ _ _ hp '7' '/' (by decide) (by decide)
        exact absurd hc (by decide)
      · intro h14
        rw [h9] at h14
        exact absurd h14 (by norm_num)
  · rw [if_neg h9]
    by_cases h14 : (14 : ℚ) ≤ version
    · rw [if_pos h14]
      constructor
      · constructor
        · rintro ⟨p, hp⟩
          have hc := append_suffix_last_char _ _ _ _ hp '/' '7' (by decide) (by decide)
          exact absurd hc (by decide)
        · intro hv
          exact absurd hv h9
      · exact ⟨fun _ => h14, fun _ => ⟨_, rfl⟩⟩
    · rw [if_neg h14]
      constructor
      · constructor
        · rintro ⟨p, hp⟩
          have hc := append_suffix_last_char _ _ _ _ hp '.' '7' (by decide) (by decide)
          exact absurd hc (by decide)
        · intro hv
          exact absurd hv h9
      · constructor
        · rintro ⟨p, hp⟩
          have hc := append_suffix_last_char _ _ _ _ hp '.' '/' (by decide) (by decide)
          exact absurd hc (by decide)
        · intro hv
          exact absurd hv h14

/-- Witness for C8: augmenting the canonical vcvarsall failure with the
family 14 keeps the kind and appends the build-tools guidance. -/
theorem c8_augment_frame_witness :
    (_augment_exception
        ⟨ErrKind.distutilsPlatformError, ("Unable to find vcvarsall.bat").data⟩ 14).kind =
      ErrKind.distutilsPlatformError ∧
    ∃ p, (_augment_exception
        ⟨ErrKind.distutilsPlatformError, ("Unable to find vcvarsall.bat").data⟩ 14).msg =
      p ++ (" Get it with \"Build Tools for Visual Studio\": https://visualstudio.microsoft.com/downloads/").data :=
  ⟨(c8_augment_frame ⟨ErrKind.distutilsPlatformError, ("Unable to find vcvarsall.bat").data⟩ 14
      rfl (Or.inl (by decide))).1,
   ((c8_augment_frame ⟨ErrKind.distutilsPlatformError, ("Unable to find vcvarsall.bat").data⟩ 14
      rfl (Or.inl (by decide))).2.2).mpr (by norm_num)⟩

